import Mathlib

/-!
Verification of the AutoSinan session-replay client (src/core/utils.py,
src/investigation/notification_researcher.py, src/investigation/sinan.py).

The embedding models:
- parsed HTML documents as a tree of elements and text nodes, with the
  BeautifulSoup lookup operations used by the source (`find` / `find_all`
  by tag name and attribute filter, descendant text extraction, attribute
  access);
- Python dicts of form fields as ordered association lists with
  overwrite-in-place insertion (`Dict`), matching CPython insertion-order
  semantics;
- each network-issuing method of `NotificationResearcher` as a function
  producing the POSTed payloads, and the whole `search` call as a function
  from the two server-rendered pages (the search form page and the result
  page) to a trace of POSTed payloads plus either a fatal error (the
  source calls `exit(1)` or raises `AttributeError`) or the parsed records;
- the `_login` payload construction and `__verify_login` of
  `InvestigationBot`.
-/

namespace AutoSinan

/-- Parsed HTML node: an element with tag name, attributes and children, or
a bare text node (a BeautifulSoup `NavigableString`). -/
inductive Node where
  | elem : String → List (String × String) → List Node → Node
  | text : String → Node

/-- A BeautifulSoup attribute filter `{"k": "v", ...}` matches an attribute
list when every filter pair occurs in it. -/
def attrsMatch (filter attrs : List (String × String)) : Bool :=
  filter.all (fun f => attrs.any (fun a => a.1 == f.1 && a.2 == f.2))

/-- Attribute access `tag.get(key)`: the value of the first attribute with
the given name, if any. -/
def attrGet (n : Node) (key : String) : Option String :=
  match n with
  | .text _ => none
  | .elem _ attrs _ => (attrs.find? (fun a => a.1 == key)).map (fun a => a.2)

mutual
/-- All elements with the given tag name and matching attributes in the
subtree rooted at a node, the node itself included, in document
(pre-)order. -/
def nodeMatches (tag : String) (f : List (String × String)) : Node → List Node
  | .text _ => []
  | .elem t a c =>
      (if t == tag && attrsMatch f a then [Node.elem t a c] else []) ++ nodesMatches tag f c
/-- All matching elements over a list of sibling subtrees, in document order. -/
def nodesMatches (tag : String) (f : List (String × String)) : List Node → List Node
  | [] => []
  | n :: ns => nodeMatches tag f n ++ nodesMatches tag f ns
end

/-- Document-level `soup.find_all(tag, filter)`: a document is the list of
its root nodes, and every element of the document is searched. -/
def soupFindAll (tag : String) (f : List (String × String)) (roots : List Node) : List Node :=
  nodesMatches tag f roots

/-- Document-level `soup.find(tag, filter)`: first match in document order,
or `none` (Python `None`) when nothing matches. -/
def soupFind (tag : String) (f : List (String × String)) (roots : List Node) : Option Node :=
  (soupFindAll tag f roots).head?

/-- Element-level `tag.find_all(name, filter)`: searches the descendants of
the element, the element itself excluded. -/
def childFindAll (tag : String) (f : List (String × String)) : Node → List Node
  | .text _ => []
  | .elem _ _ c => nodesMatches tag f c

/-- Element-level `tag.find(name)` and attribute-style access such as
`th.span`: first matching descendant or `none`. -/
def childFind (tag : String) (f : List (String × String)) (n : Node) : Option Node :=
  (childFindAll tag f n).head?

mutual
/-- The text leaves of a subtree in document order (used for `tag.text`). -/
def textPieces : Node → List String
  | .text s => [s]
  | .elem _ _ c => textPiecesList c
/-- Text leaves of a list of sibling subtrees. -/
def textPiecesList : List Node → List String
  | [] => []
  | n :: ns => textPieces n ++ textPiecesList ns
end

/-- BeautifulSoup `tag.text`: concatenation of all descendant strings. -/
def nodeText (n : Node) : String := (textPieces n).foldl (fun a b => a ++ b) ""

/-- Drop leading and trailing whitespace from a character list. -/
def stripChars (l : List Char) : List Char :=
  ((l.dropWhile Char.isWhitespace).reverse.dropWhile Char.isWhitespace).reverse

/-- Python `str.strip()`: remove leading and trailing whitespace. -/
def pyStrip (s : String) : String := ⟨stripChars s.data⟩

/-- Embedding of `valid_tag` (src/core/utils.py lines 81-84): given the
result of a lookup (`Tag`, `NavigableString` or `None`), return the tag, or
`None` for `None` and for `NavigableString`s.  A bs4 `Tag` is always truthy
(`Tag.__bool__` returns `True`), so the `not tag` test only rejects `None`
and empty strings, both already sent to `None` here. -/
def valid_tag : Option Node → Option Node
  | none => none
  | some (.text _) => none
  | some (.elem t a c) => some (.elem t a c)

/-! ## Python dicts of form fields

Payload dicts map field names to values; a value may be Python `None`
(an attribute read that found nothing), hence `Option String`.  CPython
dicts preserve insertion order and overwrite in place, which the ordered
association list `Dict` with `dictInsert` reproduces. -/

/-- Ordered dict from field names to optional string values. -/
abbrev Dict := List (String × Option String)

/-- Python `d[k] = v`: overwrite in place if the key is present, else append. -/
def dictInsert : Dict → String → Option String → Dict
  | [], k, v => [(k, v)]
  | (k', v') :: d, k, v =>
      if k' == k then (k', v) :: d else (k', v') :: dictInsert d k v

/-- Python `d.get(k)` distinguishing absence (`none`) from a stored value. -/
def dlookup (k : String) : Dict → Option (Option String)
  | [] => none
  | (k', v) :: d => if k' == k then some v else dlookup k d

/-- Python `d.pop(k, None)`: drop the binding for `k`, keep the order. -/
def dictRemove (d : Dict) (k : String) : Dict :=
  d.filter (fun p => !(p.1 == k))

/-- The keys of a dict in insertion order (Python `list(d)`). -/
def dictKeys (d : Dict) : List String := d.map (fun p => p.1)

/-- Python `dict(pairs)`: successive insertion starting from the empty dict. -/
def dictOfPairs (ps : List (String × String)) : Dict :=
  ps.foldl (fun d p => dictInsert d p.1 (some p.2)) []

/-! ## NotificationResearcher (src/investigation/notification_researcher.py) -/

/-- The constructor base payload (lines 26-42).  The date strings and the
agravo come from `core.constants` and the constructor argument; they are
parameters here because `core/constants.py` is not part of the analysed
sources and no claim depends on their values. -/
def initBasePayload (dataInicial currentDate dataFinal agravo : String) : Dict :=
  [("AJAXREQUEST", some "_viewRoot"),
   ("form", some "form"),
   ("form:consulta_tipoPeriodo", some "0"),
   ("form:consulta_dataInicialInputDate", some dataInicial),
   ("form:consulta_dataInicialInputCurrentDate", some currentDate),
   ("form:consulta_dataFinalInputDate", some dataFinal),
   ("form:consulta_dataFinalInputCurrentDate", some currentDate),
   ("form:richagravocomboboxField", some agravo),
   ("form:richagravo", some agravo),
   ("form:tipoUf", some "3"),
   ("form:consulta_uf", some "24"),
   ("form:tipoSaida", some "2"),
   ("form:consulta_tipoCampo", some "0"),
   ("form:consulta_municipio_uf_id", some "0"),
   ("form:j_id161", some "Selecione valor no campo")]

/-- Mutable researcher state: `self.base_payload` and `self.paciente`. -/
structure RState where
  base_payload : Dict
  paciente : String
deriving DecidableEq

/-- Payload POSTed by `__selecionar_agravo` (lines 46-55). -/
def selecionar_agravo_payload (b : Dict) : Dict :=
  dictInsert (dictInsert b "form:j_id108" (some "form:j_id108")) "AJAX:EVENTS_COUNT" (some "1")

/-- Payload POSTed by `__selecionar_criterio_campo` (lines 87-95) once the
option labelled `Nome do paciente` resolved to the value `v`. -/
def selecionar_criterio_payload (b : Dict) (v : Option String) : Dict :=
  dictInsert (dictInsert (dictInsert b
    "form:consulta_tipoCampo" v)
    "form:j_id136" (some "form:j_id136"))
    "ajaxSingle" (some "form:consulta_tipoCampo")

/-- Payload POSTed by `__adicionar_criterio` (lines 57-70): five updates on
a copy of the base payload, then `pop("form:j_id161", None)`. -/
def adicionar_criterio_payload (b : Dict) (paciente : String) : Dict :=
  dictRemove (dictInsert (dictInsert (dictInsert (dictInsert (dictInsert b
    "form:consulta_tipoCampo" (some "13"))
    "form:consulta_operador" (some "2"))
    "form:consulta_municipio_uf_id" (some "0"))
    "form:consulta_dsTextoPesquisa" (some paciente))
    "form:btnAdicionarCriterio" (some "form:btnAdicionarCriterio"))
    "form:j_id161"

/-- Payload POSTed by `__pesquisar` (lines 99-112). -/
def pesquisar_payload (b : Dict) : Dict :=
  dictInsert b "form:btnPesquisar" (some "form:btnPesquisar")

/-- One parsed search result row: the column-label to cell-text mapping
built by `dict(zip(column_names, row_values))`, and the payload stored
under the `open_payload` key of the same Python dict (modelled as a second
component because the Python dict mixes value types). -/
structure SearchRecord where
  fields : Dict
  open_payload : Dict
deriving DecidableEq

/-- The row-indexed field name used for the open payload (line 178). -/
def openKey (i : Nat) : String :=
  s!"form:tabelaResultadoPesquisa:{i}:visualizarNotificacao"

/-- Column label of one header cell: `th.span.text.strip()` (line 167);
`none` models the `AttributeError` raised when the `th` has no `span`. -/
def thColName (th : Node) : Option String :=
  (childFind "span" [] th).map (fun sp => pyStrip (nodeText sp))

/-- The header-derived column names, in encountered order; `none` when some
header cell lacks a `span`. -/
def extractCols : List Node → Option (List String)
  | [] => some []
  | th :: ths =>
      match thColName th, extractCols ths with
      | some c, some cs => some (c :: cs)
      | _, _ => none

/-- One iteration of the row loop (lines 170-183) at row index `i`. -/
def buildRow (base : Dict) (cols : List String) (i : Nat) (row : Node) : SearchRecord :=
  { fields := dictOfPairs (cols.zip ((childFindAll "td" [] row).map (fun td => pyStrip (nodeText td)))),
    open_payload := dictInsert base (openKey i) (some (openKey i)) }

/-- The row loop of `tratar_resultado`, enumerating from index `i`. -/
def buildRows (base : Dict) (cols : List String) : Nat → List Node → List SearchRecord
  | _, [] => []
  | i, r :: rs => buildRow base cols i r :: buildRows base cols (i + 1) rs

/-- Embedding of `NotificationResearcher.tratar_resultado` (lines 149-185):
locate the result span, the header and the body; return `[]` when any is
absent; otherwise derive the column names from the header cells and zip
them with each row, attaching the row-indexed open payload.  The outer
`Option` is `none` exactly when the source would raise (`th.span` absent). -/
def tratar_resultado (base : Dict) (page : List Node) : Option (List SearchRecord) :=
  match valid_tag (soupFind "thead" [("class", "rich-table-thead")] page),
        valid_tag (soupFind "tbody" [("id", "form:tabelaResultadoPesquisa:tb")] page),
        soupFind "span" [("id", "form:panelResultadoPesquisa")] page with
  | some th, some tb, some _ =>
      match extractCols (childFindAll "th" [] th) with
      | none => none
      | some cols => some (buildRows base cols 0 (childFindAll "tr" [] tb))
  | _, _, _ => some []

/-- The criterion lookup of `__selecionar_criterio_campo` (lines 76-80):
first option of the field selector whose stripped text is the literal
`Nome do paciente`. -/
def findCriterion (sel : Node) : Option Node :=
  (childFindAll "option" [] sel).find? (fun o => pyStrip (nodeText o) == "Nome do paciente")

/-- Outcome of one `search` call: the POSTed payloads in order, and either
a fatal condition (the source exits or raises) or the final researcher
state with the parsed records. -/
structure RunOutcome where
  trace : List Dict
  result : Except String (RState × List SearchRecord)

/-- The four payloads POSTed on the path where the criterion option `opt`
was found: `__selecionar_agravo`, the field-type selection, the chained
`__adicionar_criterio`, and `__pesquisar`, in source order. -/
def fullTrace (st : RState) (opt : Node) : List Dict :=
  [selecionar_agravo_payload st.base_payload,
   selecionar_criterio_payload st.base_payload (attrGet opt "value"),
   adicionar_criterio_payload st.base_payload st.paciente,
   pesquisar_payload st.base_payload]

/-- The tail of `search` once the criterion option `opt` was resolved: the
remaining POSTs run and `tratar_resultado` parses the search response
(`none` models the exception raised on a header cell without a span). -/
def afterCriterion (st : RState) (opt : Node) (rp : List Node) : RunOutcome :=
  match tratar_resultado st.base_payload rp with
  | none => ⟨fullTrace st opt, .error "AttributeError: NoneType object has no attribute text"⟩
  | some recs => ⟨fullTrace st opt, .ok (st, recs)⟩

/-- `__selecionar_criterio_campo` given the located field selector: scan
its options for the literal label `Nome do paciente`; exit before any
further POST when it is absent (lines 82-85); otherwise continue. -/
def afterSelect (st : RState) (sel : Node) (rp : List Node) : RunOutcome :=
  match findCriterion sel with
  | none => ⟨[selecionar_agravo_payload st.base_payload],
             .error "Criterio Nome do paciente not found."⟩
  | some opt => afterCriterion st opt rp

/-- The part of `search` after the view-state token was committed into the
base payload: `__selecionar_agravo`, `__selecionar_criterio_campo` (which
chains `__adicionar_criterio`), `__pesquisar` and `tratar_resultado`.
The field selector is read from the page loaded by `__define_javax_faces`
(`self.soup`); reading it through a missing selector raises
(`NoneType.find_all`). -/
def searchAfterToken (st : RState) (sp rp : List Node) : RunOutcome :=
  match soupFind "select" [("id", "form:consulta_tipoCampo")] sp with
  | none => ⟨[selecionar_agravo_payload st.base_payload],
             .error "AttributeError: NoneType object has no attribute find_all"⟩
  | some sel => afterSelect st sel rp

/-- Embedding of `NotificationResearcher.search` (lines 126-147) driven by
the two server-rendered pages: `sp` is the page fetched by
`__define_javax_faces`, `rp` the search response.  `self.paciente` is set,
then the view-state token is extracted through `valid_tag` and committed
into `self.base_payload` (fatal when absent), then the POST sequence runs. -/
def searchW (st0 : RState) (patient : String) (sp rp : List Node) : RunOutcome :=
  match valid_tag (soupFind "input" [("name", "javax.faces.ViewState")] sp) with
  | none => ⟨[], .error "Java Faces not found."⟩
  | some jf =>
      searchAfterToken
        ⟨dictInsert st0.base_payload "javax.faces.ViewState" (attrGet jf "value"), patient⟩ sp rp

/-! ## InvestigationBot login (src/investigation/sinan.py) -/

/-- Character-list version of the Python substring test: does the second
list start the first. -/
def leadsWith : List Char → List Char → Bool
  | [], _ => true
  | _ :: _, [] => false
  | a :: as, b :: bs => a == b && leadsWith as bs

/-- Does `pat` occur as a contiguous run inside the list. -/
def hasSubList (pat : List Char) : List Char → Bool
  | [] => leadsWith pat []
  | c :: rest => leadsWith pat (c :: rest) || hasSubList pat rest

/-- Python `pat in s` on strings: contiguous substring membership. -/
def strContains (s pat : String) : Bool := hasSubList pat.data s.data

/-- The credential substitution of `_login` (lines 116-119): a field whose
name contains `username` gets the username, else one containing `password`
gets the password, else the default value is kept. -/
def substituteCred (username password : String) (name : String) (value : Option String) :
    Option String :=
  if strContains name "username" then some username
  else if strContains name "password" then some password
  else value

/-- The payload loop of `_login` (lines 113-120) over the form inputs, each
given as `(input.get("name"), input.get("value"))`.  A `None` name makes
`"username" in name` raise `TypeError`, modelled by the error result. -/
def buildLoginPayload (username password : String) :
    List (Option String × Option String) → Dict → Except String Dict
  | [], acc => .ok acc
  | (none, _) :: _, _ => .error "TypeError: argument of type NoneType is not iterable"
  | (some name, value) :: rest, acc =>
      buildLoginPayload username password rest
        (dictInsert acc name (substituteCred username password name value))

/-- The login payload built by `_login` from the form inputs. -/
def loginPayload (username password : String)
    (inputs : List (Option String × Option String)) : Except String Dict :=
  buildLoginPayload username password inputs []

/-- The bot state relevant to `__verify_login`: the session held by the bot
and the session references held by the researcher and investigator
collaborators (sessions are represented by identifiers). -/
structure BotState where
  session : Nat
  researcherSession : Nat
  investigatorSession : Nat
deriving DecidableEq

/-- Embedding of `InvestigationBot.__verify_login` (lines 79-96): when the
`detalheUsuario` marker div is absent the bot logs and exits (error, no
state change committed); when present, the session reference is propagated
to the researcher and the investigator. -/
def verify_login (st : BotState) (page : List Node) : Except String BotState :=
  match soupFind "div" [("id", "detalheUsuario")] page with
  | none => .error "LOGIN: Falha na autenticação."
  | some _ => .ok { st with researcherSession := st.session, investigatorSession := st.session }

/-! ## Dictionary lemmas -/

theorem dlookup_dictInsert_self (d : Dict) (k : String) (v : Option String) :
    dlookup k (dictInsert d k v) = some v := by
  induction d with
  | nil => simp [dictInsert, dlookup]
  | cons p d ih =>
      obtain ⟨k', v'⟩ := p
      by_cases h : k' = k
      · subst h; simp [dictInsert, dlookup]
      · simp [dictInsert, dlookup, h, ih]

theorem dlookup_dictInsert_ne (d : Dict) (k k' : String) (v : Option String)
    (h : k' ≠ k) : dlookup k (dictInsert d k' v) = dlookup k d := by
  induction d with
  | nil => simp [dictInsert, dlookup, h]
  | cons p d ih =>
      obtain ⟨k0, v0⟩ := p
      by_cases h0 : k0 = k'
      · subst h0; simp [dictInsert, dlookup, h]
      · by_cases h1 : k0 = k
        · subst h1; simp [dictInsert, dlookup, h0]
        · simp [dictInsert, dlookup, h0, h1, ih]

theorem dlookup_dictRemove_ne (d : Dict) (k k' : String) (h : k' ≠ k) :
    dlookup k (dictRemove d k') = dlookup k d := by
  induction d with
  | nil => simp [dictRemove, dlookup]
  | cons p d ih =>
      obtain ⟨k0, v0⟩ := p
      by_cases h0 : k0 = k'
      · subst h0; simpa [dictRemove, dlookup, h] using ih
      · by_cases h1 : k0 = k
        · subst h1; simp [dictRemove, dlookup, h0]
        · simpa [dictRemove, dlookup, h0, h1] using ih

theorem mem_dictKeys_dictInsert_self (d : Dict) (k : String) (v : Option String) :
    k ∈ dictKeys (dictInsert d k v) := by
  induction d with
  | nil => simp [dictInsert, dictKeys]
  | cons p d ih =>
      obtain ⟨k0, v0⟩ := p
      by_cases h0 : k0 = k
      · subst h0; simp [dictInsert, dictKeys]
      · have e : dictInsert ((k0, v0) :: d) k v = (k0, v0) :: dictInsert d k v := by
          simp [dictInsert, h0]
        rw [e]
        simp only [dictKeys, List.map_cons, List.mem_cons]
        exact Or.inr (by simpa [dictKeys] using ih)

theorem dictKeys_dictInsert_of_mem (d : Dict) (k : String) (v : Option String)
    (h : k ∈ dictKeys d) : dictKeys (dictInsert d k v) = dictKeys d := by
  induction d with
  | nil => simp [dictKeys] at h
  | cons p d ih =>
      obtain ⟨k0, v0⟩ := p
      by_cases h0 : k0 = k
      · subst h0; simp [dictInsert, dictKeys]
      · have hm : k ∈ dictKeys d := by
          rcases (by simpa only [dictKeys, List.map_cons, List.mem_cons] using h :
            k = k0 ∨ k ∈ List.map (fun p => p.1) d) with e | e
          · exact absurd e.symm h0
          · exact e
        have e : dictInsert ((k0, v0) :: d) k v = (k0, v0) :: dictInsert d k v := by
          simp [dictInsert, h0]
        rw [e]
        simp only [dictKeys, List.map_cons]
        rw [show List.map (fun p => p.1) (dictInsert d k v) = List.map (fun p => p.1) d from
          by simpa [dictKeys] using ih hm]

theorem dictInsert_eq_append (d : Dict) (k : String) (v : Option String)
    (h : k ∉ dictKeys d) : dictInsert d k v = d ++ [(k, v)] := by
  induction d with
  | nil => rfl
  | cons p d ih =>
      obtain ⟨k0, v0⟩ := p
      have h0 : k0 ≠ k := by
        intro e; subst e
        exact h (by simp [dictKeys])
      have h1 : k ∉ dictKeys d := by
        intro e
        exact h (by simp only [dictKeys, List.map_cons, List.mem_cons]; exact Or.inr e)
      simp [dictInsert, h0, ih h1]

theorem dictKeys_append (d d' : Dict) :
    dictKeys (d ++ d') = dictKeys d ++ dictKeys d' := by
  simp [dictKeys]

/-! ## Every tag-name match is an element -/

mutual
theorem nodeMatches_elems (tag : String) (f : List (String × String)) :
    (n : Node) → ∀ m ∈ nodeMatches tag f n, ∃ t a c, m = Node.elem t a c
  | .text s => by simp [nodeMatches]
  | .elem t a c => by
      intro m hm
      simp only [nodeMatches] at hm
      rcases List.mem_append.mp hm with h | h
      · by_cases hc : (t == tag && attrsMatch f a) = true
        · simp [hc] at h
          exact ⟨t, a, c, h⟩
        · simp [hc] at h
      · exact nodesMatches_elems tag f c m h
theorem nodesMatches_elems (tag : String) (f : List (String × String)) :
    (ns : List Node) → ∀ m ∈ nodesMatches tag f ns, ∃ t a c, m = Node.elem t a c
  | [] => by simp [nodesMatches]
  | n :: ns => by
      intro m hm
      simp only [nodesMatches] at hm
      rcases List.mem_append.mp hm with h | h
      · exact nodeMatches_elems tag f n m h
      · exact nodesMatches_elems tag f ns m h
end

/-! ## Claim C2: the markup accessor -/

/-- C2: for every parsed document and tag-name lookup, `valid_tag` returns
the matching element whenever the locator matched one and returns `none`
exactly when no element matched; being a total Lean function it never
raises on absence. -/
theorem c2_valid_tag_total (tag : String) (f : List (String × String)) (roots : List Node) :
    valid_tag (soupFind tag f roots) = soupFind tag f roots := by
  cases hf : soupFind tag f roots with
  | none => rfl
  | some m =>
      have hm : m ∈ nodesMatches tag f roots := by
        unfold soupFind soupFindAll at hf
        cases hl : nodesMatches tag f roots with
        | nil => rw [hl] at hf; simp at hf
        | cons x xs =>
            rw [hl] at hf
            simp only [List.head?] at hf
            obtain rfl : x = m := by injection hf
            exact List.mem_cons_self x xs
      obtain ⟨t, a, c, rfl⟩ := nodesMatches_elems tag f roots m hm
      simp [valid_tag]

/-! ## Test fixtures: a rendered results page -/

/-- Header cell `<th><span>label</span></th>`. -/
def thCell (label : String) : Node := .elem "th" [] [.elem "span" [] [.text label]]

/-- Body cell `<td>s</td>`. -/
def tdCell (s : String) : Node := .elem "td" [] [.text s]

/-- Body row with three cells. -/
def bodyRow (x y z : String) : Node := .elem "tr" [] [tdCell x, tdCell y, tdCell z]

/-- A results page with the result span, a header row with the labels
`Nome`, `UF`, `Data`, and two body rows of three cells each. -/
def resultsPage (a1 a2 a3 b1 b2 b3 : String) : List Node :=
  [.elem "span" [("id", "form:panelResultadoPesquisa")] [],
   .elem "table" []
     [.elem "thead" [("class", "rich-table-thead")]
        [.elem "tr" [] [thCell "Nome", thCell "UF", thCell "Data"]],
      .elem "tbody" [("id", "form:tabelaResultadoPesquisa:tb")]
        [bodyRow a1 a2 a3, bodyRow b1 b2 b3]]]

/-! ## Claim C4: header-driven parsing of a concrete results page -/

/-- C4: on a results page whose header labels are `Nome`, `UF`, `Data` and
whose body holds two rows, `tratar_resultado` returns exactly two records
whose field keys are exactly those three labels in that order, with the
stripped cell texts row by row in document order, each carrying its
row-indexed open payload; the list is in server-rendered row order. -/
theorem c4_result_parsing (b : Dict) (a1 a2 a3 b1 b2 b3 : String) :
    tratar_resultado b (resultsPage a1 a2 a3 b1 b2 b3) =
      some [⟨[("Nome", some (pyStrip a1)), ("UF", some (pyStrip a2)), ("Data", some (pyStrip a3))],
             dictInsert b (openKey 0) (some (openKey 0))⟩,
            ⟨[("Nome", some (pyStrip b1)), ("UF", some (pyStrip b2)), ("Data", some (pyStrip b3))],
             dictInsert b (openKey 1) (some (openKey 1))⟩] := rfl

/-! ## Claim C7: a page missing the results table parses to the empty list -/

/-- C7: whenever the result span, the header or the body is absent from the
search response, `tratar_resultado` returns the empty list rather than an
error. -/
theorem c7_missing_parts_empty (base : Dict) (page : List Node)
    (h : soupFind "span" [("id", "form:panelResultadoPesquisa")] page = none ∨
         valid_tag (soupFind "thead" [("class", "rich-table-thead")] page) = none ∨
         valid_tag (soupFind "tbody" [("id", "form:tabelaResultadoPesquisa:tb")] page) = none) :
    tratar_resultado base page = some [] := by
  unfold tratar_resultado
  cases hth : valid_tag (soupFind "thead" [("class", "rich-table-thead")] page) with
  | none => rfl
  | some th =>
      cases htb : valid_tag (soupFind "tbody" [("id", "form:tabelaResultadoPesquisa:tb")] page) with
      | none => rfl
      | some tb =>
          cases hsp : soupFind "span" [("id", "form:panelResultadoPesquisa")] page with
          | none => rfl
          | some sp =>
              rcases h with h | h | h
              · rw [hsp] at h; cases h
              · rw [hth] at h; cases h
              · rw [htb] at h; cases h

/-- Witness for C7: the empty page misses all three parts and parses to the
empty record list. -/
theorem c7_witness : tratar_resultado [] [] = some [] :=
  c7_missing_parts_empty [] [] (Or.inl rfl)

/-! ## Claim C5: open payloads are indexed by row position -/

theorem buildRows_get_open_payload (base : Dict) (cols : List String) :
    ∀ (rs : List Node) (j i : Nat) (h : i < (buildRows base cols j rs).length),
      ((buildRows base cols j rs).get ⟨i, h⟩).open_payload =
        dictInsert base (openKey (j + i)) (some (openKey (j + i))) := by
  intro rs
  induction rs with
  | nil => intro j i h; simp [buildRows] at h
  | cons r rs ih =>
      intro j i h
      cases i with
      | zero =>
          show (buildRow base cols j r).open_payload = _
          simp [buildRow]
      | succ i =>
          have hi : i < (buildRows base cols (j + 1) rs).length := Nat.lt_of_succ_lt_succ h
          have e : (buildRows base cols j (r :: rs)).get ⟨i + 1, h⟩ =
              (buildRows base cols (j + 1) rs).get ⟨i, hi⟩ := rfl
          rw [e, ih (j + 1) i hi, show j + 1 + i = j + (i + 1) from by omega]

/-- C5: every record list returned by `tratar_resultado` carries, at
position `i`, an open payload equal to the base form state extended with
the field named after the zero-based row index `i`. -/
theorem c5_open_payload_positional (base : Dict) (page : List Node)
    (recs : List SearchRecord) (hr : tratar_resultado base page = some recs)
    (i : Nat) (h : i < recs.length) :
    (recs.get ⟨i, h⟩).open_payload = dictInsert base (openKey i) (some (openKey i)) := by
  unfold tratar_resultado at hr
  revert hr
  cases hth : valid_tag (soupFind "thead" [("class", "rich-table-thead")] page) with
  | none =>
      intro hr
      obtain rfl : ([] : List SearchRecord) = recs := by injection hr
      simp at h
  | some th =>
      cases htb : valid_tag (soupFind "tbody" [("id", "form:tabelaResultadoPesquisa:tb")] page) with
      | none =>
          intro hr
          obtain rfl : ([] : List SearchRecord) = recs := by injection hr
          simp at h
      | some tb =>
          cases hsp : soupFind "span" [("id", "form:panelResultadoPesquisa")] page with
          | none =>
              intro hr
              obtain rfl : ([] : List SearchRecord) = recs := by injection hr
              simp at h
          | some sp =>
              show (match extractCols (childFindAll "th" [] th) with
                    | none => none
                    | some cols => some (buildRows base cols 0 (childFindAll "tr" [] tb))) =
                  some recs →
                  (recs.get ⟨i, h⟩).open_payload = dictInsert base (openKey i) (some (openKey i))
              cases hc : extractCols (childFindAll "th" [] th) with
              | none => intro hr; simp at hr
              | some cols =>
                  intro hr
                  obtain rfl : buildRows base cols 0 (childFindAll "tr" [] tb) = recs := by
                    injection hr
                  simpa using buildRows_get_open_payload base cols (childFindAll "tr" [] tb) 0 i h

/-- Witness for C5: the second record of the parsed two-row fixture carries
the open payload indexed 1. -/
theorem c5_witness :
    (([⟨[("Nome", some "A"), ("UF", some "B"), ("Data", some "C")],
        dictInsert [] (openKey 0) (some (openKey 0))⟩,
       ⟨[("Nome", some "D"), ("UF", some "E"), ("Data", some "F")],
        dictInsert [] (openKey 1) (some (openKey 1))⟩] : List SearchRecord).get
      ⟨1, by simp⟩).open_payload = dictInsert [] (openKey 1) (some (openKey 1)) :=
  c5_open_payload_positional [] (resultsPage "A" "B" "C" "D" "E" "F") _ rfl 1 (by decide)

/-! ## Claim C3: login payload construction -/

theorem dlookup_map_fst (val : (String × Option String) → Option String) :
    ∀ (fields : List (String × Option String)), (fields.map Prod.fst).Nodup →
      ∀ f ∈ fields, dlookup f.1 (fields.map (fun g => (g.1, val g))) = some (val f)
  | [] => by intro _ f hf; simp at hf
  | g :: fields => by
      intro hnd f hf
      rcases List.mem_cons.mp hf with rfl | hf2
      · simp [dlookup]
      · have hne : g.1 ≠ f.1 := by
          intro e
          exact (List.nodup_cons.mp hnd).1 (e ▸ List.mem_map_of_mem Prod.fst hf2)
        have ih := dlookup_map_fst val fields (List.nodup_cons.mp hnd).2 f hf2
        simpa [dlookup, hne] using ih

theorem buildLoginPayload_named (u p : String) :
    ∀ (fields : List (String × Option String)) (acc : Dict),
      (fields.map Prod.fst).Nodup →
      (∀ g ∈ fields, g.1 ∉ dictKeys acc) →
      buildLoginPayload u p (fields.map (fun g => (some g.1, g.2))) acc =
        .ok (acc ++ fields.map (fun g => (g.1, substituteCred u p g.1 g.2)))
  | [], acc, _, _ => by simp [buildLoginPayload]
  | g :: fields, acc, hnd, hk => by
      simp only [List.map_cons]
      show buildLoginPayload u p _ (dictInsert acc g.1 (substituteCred u p g.1 g.2)) = _
      rw [dictInsert_eq_append acc g.1 _ (hk g (List.mem_cons_self g fields))]
      rw [buildLoginPayload_named u p fields (acc ++ [(g.1, substituteCred u p g.1 g.2)])
        (List.nodup_cons.mp hnd).2 ?fresh]
      · simp
      case fresh =>
        intro g2 hg2 hmem
        rw [dictKeys_append] at hmem
        rcases List.mem_append.mp hmem with h1 | h2
        · exact hk g2 (List.mem_cons_of_mem g hg2) h1
        · have e : g2.1 = g.1 := by simpa [dictKeys] using h2
          exact (List.nodup_cons.mp hnd).1 (e ▸ List.mem_map_of_mem Prod.fst hg2)

/-- C3: for a well-formed login form whose N input fields have pairwise
distinct names, exactly one name containing `username` and exactly one
containing `password` (two distinct fields), the constructed payload has
exactly N entries in form order; the field whose name contains `username`
maps to the supplied username, the one containing `password` to the
supplied password, and every other field keeps its default value. -/
theorem c3_login_payload_substitution (u p : String) (fields : List (String × Option String))
    (hnd : (fields.map Prod.fst).Nodup)
    (hu : (fields.filter (fun g => strContains g.1 "username")).length = 1)
    (hp : (fields.filter (fun g => strContains g.1 "password")).length = 1)
    (hsep : ∀ g ∈ fields,
      ¬(strContains g.1 "username" = true ∧ strContains g.1 "password" = true)) :
    loginPayload u p (fields.map (fun g => (some g.1, g.2))) =
      .ok (fields.map (fun g => (g.1, substituteCred u p g.1 g.2))) ∧
    (fields.map (fun g => (g.1, substituteCred u p g.1 g.2))).length = fields.length ∧
    dictKeys (fields.map (fun g => (g.1, substituteCred u p g.1 g.2))) = fields.map Prod.fst ∧
    (∀ g ∈ fields, strContains g.1 "username" = true →
      dlookup g.1 (fields.map (fun g2 => (g2.1, substituteCred u p g2.1 g2.2))) =
        some (some u)) ∧
    (∀ g ∈ fields, strContains g.1 "password" = true →
      dlookup g.1 (fields.map (fun g2 => (g2.1, substituteCred u p g2.1 g2.2))) =
        some (some p)) ∧
    (∀ g ∈ fields, strContains g.1 "username" = false → strContains g.1 "password" = false →
      dlookup g.1 (fields.map (fun g2 => (g2.1, substituteCred u p g2.1 g2.2))) = some g.2) := by
  refine ⟨?_, by simp, by simp [dictKeys, Function.comp], ?_, ?_, ?_⟩
  · have := buildLoginPayload_named u p fields [] hnd (by simp [dictKeys])
    simpa [loginPayload] using this
  · intro g hg hgu
    rw [dlookup_map_fst (fun g2 => substituteCred u p g2.1 g2.2) fields hnd g hg]
    simp [substituteCred, hgu]
  · intro g hg hgp
    have hgu : strContains g.1 "username" = false := by
      cases e : strContains g.1 "username" with
      | false => rfl
      | true => exact absurd ⟨e, hgp⟩ (hsep g hg)
    rw [dlookup_map_fst (fun g2 => substituteCred u p g2.1 g2.2) fields hnd g hg]
    simp [substituteCred, hgu, hgp]
  · intro g hg hgu hgp
    rw [dlookup_map_fst (fun g2 => substituteCred u p g2.1 g2.2) fields hnd g hg]
    simp [substituteCred, hgu, hgp]

/-- Witness for C3 at a concrete three-field login form. -/
theorem c3_witness :
    loginPayload "user" "pass"
      [(some "form:j_username", some ""), (some "form:j_password", some ""),
       (some "javax.faces.ViewState", some "j_id1")] =
      .ok [("form:j_username", some "user"), ("form:j_password", some "pass"),
           ("javax.faces.ViewState", some "j_id1")] :=
  (c3_login_payload_substitution "user" "pass"
    [("form:j_username", some ""), ("form:j_password", some ""),
     ("javax.faces.ViewState", some "j_id1")]
    (by decide) (by decide) (by decide) (by decide)).1

/-! ## Claim C10: unnamed inputs break the login payload loop -/

theorem buildLoginPayload_unnamed (u p : String) :
    ∀ (inputs : List (Option String × Option String)) (acc : Dict),
      (∃ x ∈ inputs, x.1 = none) →
      buildLoginPayload u p inputs acc =
        .error "TypeError: argument of type NoneType is not iterable"
  | [], acc => by rintro ⟨x, hx, _⟩; simp at hx
  | (name, value) :: inputs, acc => by
      rintro ⟨x, hx, hn⟩
      cases name with
      | none => rfl
      | some nm =>
          show buildLoginPayload u p inputs (dictInsert acc nm (substituteCred u p nm value)) = _
          apply buildLoginPayload_unnamed
          rcases List.mem_cons.mp hx with rfl | hx2
          · cases hn
          · exact ⟨x, hx2, hn⟩

theorem buildLoginPayload_named_ok (u p : String) :
    ∀ (inputs : List (Option String × Option String)) (acc : Dict),
      (∀ x ∈ inputs, x.1 ≠ none) →
      ∃ l, buildLoginPayload u p inputs acc = .ok l
  | [], acc => fun _ => ⟨acc, rfl⟩
  | (name, value) :: inputs, acc => by
      intro h
      cases name with
      | none => exact absurd rfl (h (none, value) (List.mem_cons_self _ _))
      | some nm =>
          exact buildLoginPayload_named_ok u p inputs
            (dictInsert acc nm (substituteCred u p nm value))
            (fun x hx => h x (List.mem_cons_of_mem _ hx))

/-- C10: the login payload loop assumes every form input is named.  If any
input has no name attribute, the substring membership test raises an
unhandled `TypeError` (no descriptive login failure is produced); when all
inputs are named, that error branch is unreachable and the loop returns a
payload. -/
theorem c10_unnamed_input_type_error (u p : String)
    (inputs : List (Option String × Option String)) :
    ((∃ x ∈ inputs, x.1 = none) →
      loginPayload u p inputs = .error "TypeError: argument of type NoneType is not iterable") ∧
    ((∀ x ∈ inputs, x.1 ≠ none) → ∃ l, loginPayload u p inputs = .ok l) :=
  ⟨fun h => buildLoginPayload_unnamed u p inputs [] h,
   fun h => buildLoginPayload_named_ok u p inputs [] h⟩

/-- Witness for C10: a form with one unnamed input raises the type error; a
fully named form yields a payload. -/
theorem c10_witness :
    loginPayload "u" "p" [(some "form:j_username", some ""), (none, none)] =
      .error "TypeError: argument of type NoneType is not iterable" ∧
    ∃ l, loginPayload "u" "p" [(some "form:j_username", some "")] = .ok l :=
  ⟨(c10_unnamed_input_type_error "u" "p" _).1 ⟨(none, none), by simp, rfl⟩,
   (c10_unnamed_input_type_error "u" "p" _).2 (by decide)⟩

/-! ## Claim C8: the login marker gates session propagation -/

/-- C8: when the `detalheUsuario` marker is absent from the login response,
`verify_login` reports failure and commits no session state; the session
reference is propagated to the researcher and investigator collaborators
exactly on the success path. -/
theorem c8_login_marker_gates_session (st : BotState) (page : List Node) :
    (soupFind "div" [("id", "detalheUsuario")] page = none →
      verify_login st page = .error "LOGIN: Falha na autenticação.") ∧
    (∀ st2, verify_login st page = .ok st2 →
      soupFind "div" [("id", "detalheUsuario")] page ≠ none ∧
      st2 = { st with researcherSession := st.session, investigatorSession := st.session }) := by
  constructor
  · intro h
    unfold verify_login
    rw [h]
  · intro st2 h2
    cases hf : soupFind "div" [("id", "detalheUsuario")] page with
    | none =>
        unfold verify_login at h2
        rw [hf] at h2
        cases h2
    | some d =>
        refine ⟨by simp [hf], ?_⟩
        unfold verify_login at h2
        rw [hf] at h2
        injection h2 with e
        exact e.symm

/-- Witness for C8: a response without the marker makes login fail. -/
theorem c8_witness : verify_login ⟨7, 0, 0⟩ [] = .error "LOGIN: Falha na autenticação." :=
  (c8_login_marker_gates_session ⟨7, 0, 0⟩ []).1 rfl

/-! ## Payload lookup lemmas -/

theorem selecionar_criterio_payload_ajax (b : Dict) (v : Option String) :
    dlookup "ajaxSingle" (selecionar_criterio_payload b v) =
      some (some "form:consulta_tipoCampo") :=
  dlookup_dictInsert_self _ _ _

theorem selecionar_criterio_payload_tipo (b : Dict) (v : Option String) :
    dlookup "form:consulta_tipoCampo" (selecionar_criterio_payload b v) = some v := by
  unfold selecionar_criterio_payload
  rw [dlookup_dictInsert_ne _ _ _ _ (by decide), dlookup_dictInsert_ne _ _ _ _ (by decide),
    dlookup_dictInsert_self]

theorem adicionar_criterio_payload_btn (b : Dict) (q : String) :
    dlookup "form:btnAdicionarCriterio" (adicionar_criterio_payload b q) =
      some (some "form:btnAdicionarCriterio") := by
  unfold adicionar_criterio_payload
  rw [dlookup_dictRemove_ne _ _ _ (by decide), dlookup_dictInsert_self]

theorem adicionar_criterio_payload_tipo (b : Dict) (q : String) :
    dlookup "form:consulta_tipoCampo" (adicionar_criterio_payload b q) = some (some "13") := by
  unfold adicionar_criterio_payload
  rw [dlookup_dictRemove_ne _ _ _ (by decide), dlookup_dictInsert_ne _ _ _ _ (by decide),
    dlookup_dictInsert_ne _ _ _ _ (by decide), dlookup_dictInsert_ne _ _ _ _ (by decide),
    dlookup_dictInsert_ne _ _ _ _ (by decide), dlookup_dictInsert_self]

theorem selecionar_agravo_payload_btn (b : Dict)
    (hbtn : dlookup "form:btnAdicionarCriterio" b = none) :
    dlookup "form:btnAdicionarCriterio" (selecionar_agravo_payload b) = none := by
  unfold selecionar_agravo_payload
  rw [dlookup_dictInsert_ne _ _ _ _ (by decide), dlookup_dictInsert_ne _ _ _ _ (by decide)]
  exact hbtn

/-! ## Workflow state lemmas -/

theorem afterCriterion_ok_state (st : RState) (opt : Node) (rp : List Node) (st2 : RState)
    (recs : List SearchRecord)
    (h : (afterCriterion st opt rp).result = .ok (st2, recs)) : st2 = st := by
  unfold afterCriterion at h
  revert h
  cases htr : tratar_resultado st.base_payload rp with
  | none => intro h; cases h
  | some recs2 =>
      intro h
      injection h with e
      injection e with e1 e2
      exact e1.symm

theorem afterSelect_ok_state (st : RState) (sel : Node) (rp : List Node) (st2 : RState)
    (recs : List SearchRecord)
    (h : (afterSelect st sel rp).result = .ok (st2, recs)) : st2 = st := by
  unfold afterSelect at h
  revert h
  cases hcrit : findCriterion sel with
  | none => intro h; cases h
  | some opt => exact afterCriterion_ok_state st opt rp st2 recs

theorem searchAfterToken_ok_state (st : RState) (sp rp : List Node) (st2 : RState)
    (recs : List SearchRecord)
    (h : (searchAfterToken st sp rp).result = .ok (st2, recs)) : st2 = st := by
  unfold searchAfterToken at h
  revert h
  cases hsel : soupFind "select" [("id", "form:consulta_tipoCampo")] sp with
  | none => intro h; cases h
  | some sel => exact afterSelect_ok_state st sel rp st2 recs

theorem searchW_ok_state (st0 : RState) (q : String) (sp rp : List Node)
    (st2 : RState) (recs : List SearchRecord)
    (h : (searchW st0 q sp rp).result = .ok (st2, recs)) :
    ∃ v, st2 = ⟨dictInsert st0.base_payload "javax.faces.ViewState" v, q⟩ := by
  unfold searchW at h
  revert h
  cases hjf : valid_tag (soupFind "input" [("name", "javax.faces.ViewState")] sp) with
  | none => intro h; cases h
  | some jf =>
      intro h
      exact ⟨attrGet jf "value", searchAfterToken_ok_state _ sp rp st2 recs h⟩

/-! ## Claim C6: repeated search preparation does not accumulate fields -/

/-- C6: two successful `search` runs with the same query leave base form
states with the same key list (no accumulated or duplicated fields), whose
values agree on every field other than the freshly committed view-state
token. -/
theorem c6_search_preparation_idempotent (st0 st1 st2 : RState) (q : String)
    (spA rpA spB rpB : List Node) (r1 r2 : List SearchRecord)
    (h1 : (searchW st0 q spA rpA).result = .ok (st1, r1))
    (h2 : (searchW st1 q spB rpB).result = .ok (st2, r2)) :
    dictKeys st2.base_payload = dictKeys st1.base_payload ∧
    ∀ k, k ≠ "javax.faces.ViewState" →
      dlookup k st2.base_payload = dlookup k st1.base_payload := by
  obtain ⟨v1, e1⟩ := searchW_ok_state st0 q spA rpA st1 r1 h1
  obtain ⟨v2, e2⟩ := searchW_ok_state st1 q spB rpB st2 r2 h2
  subst e1
  subst e2
  constructor
  · exact dictKeys_dictInsert_of_mem _ _ _ (mem_dictKeys_dictInsert_self _ _ _)
  · intro k hk
    exact dlookup_dictInsert_ne _ _ _ _ (fun e => hk e.symm)

/-- A search form page carrying the view-state token `t` and a field
selector whose option labelled `Nome do paciente` has server value `v`. -/
def searchFormPage (t v : String) : List Node :=
  [.elem "input" [("name", "javax.faces.ViewState"), ("value", t)] [],
   .elem "select" [("id", "form:consulta_tipoCampo")]
     [.elem "option" [("value", v)] [.text "Nome do paciente"]]]

/-- Witness for C6: two concrete runs with tokens `t1`, `t2` give the same
key list. -/
theorem c6_witness :
    dictKeys (⟨[("javax.faces.ViewState", some "t2")], "Q"⟩ : RState).base_payload =
      dictKeys (⟨[("javax.faces.ViewState", some "t1")], "Q"⟩ : RState).base_payload :=
  (c6_search_preparation_idempotent ⟨[], ""⟩ ⟨[("javax.faces.ViewState", some "t1")], "Q"⟩
    ⟨[("javax.faces.ViewState", some "t2")], "Q"⟩ "Q"
    (searchFormPage "t1" "13") [] (searchFormPage "t2" "13") [] [] [] rfl rfl).1

/-! ## Claim C1: criterion resolution and the criterion-add payload -/

/-- C1 (amended): when the field selector options hold an option whose
stripped label is exactly `Nome do paciente`, the filter-selection step
resolves that option's server-assigned value and includes it in the
field-type-selection payload, and the subsequent criterion-add payload is
issued carrying the fixed field code `13` (not the resolved value); when no
option has that label, the operation fails fast and no criterion-add
request is issued. -/
theorem c1_criterion_resolution (st : RState) (q : String) (sp rp : List Node) (sel : Node)
    (hbtn : dlookup "form:btnAdicionarCriterio" st.base_payload = none)
    (hjf : (valid_tag (soupFind "input" [("name", "javax.faces.ViewState")] sp)).isSome = true)
    (hsel : soupFind "select" [("id", "form:consulta_tipoCampo")] sp = some sel) :
    (∀ opt, findCriterion sel = some opt →
      (∃ pl ∈ (searchW st q sp rp).trace,
        dlookup "ajaxSingle" pl ≠ none ∧
        dlookup "form:consulta_tipoCampo" pl = some (attrGet opt "value")) ∧
      (∃ pl ∈ (searchW st q sp rp).trace,
        dlookup "form:btnAdicionarCriterio" pl ≠ none ∧
        dlookup "form:consulta_tipoCampo" pl = some (some "13"))) ∧
    (findCriterion sel = none →
      (searchW st q sp rp).result = .error "Criterio Nome do paciente not found." ∧
      ∀ pl ∈ (searchW st q sp rp).trace, dlookup "form:btnAdicionarCriterio" pl = none) := by
  cases hjfe : valid_tag (soupFind "input" [("name", "javax.faces.ViewState")] sp) with
  | none => rw [hjfe] at hjf; cases hjf
  | some jf =>
      have hsw : searchW st q sp rp =
          searchAfterToken ⟨dictInsert st.base_payload "javax.faces.ViewState"
            (attrGet jf "value"), q⟩ sp rp := by
        unfold searchW
        rw [hjfe]
      constructor
      · intro opt hopt
        have htrace : (searchW st q sp rp).trace =
            fullTrace ⟨dictInsert st.base_payload "javax.faces.ViewState"
              (attrGet jf "value"), q⟩ opt := by
          rw [hsw]
          unfold searchAfterToken
          rw [hsel]
          show (afterSelect _ sel rp).trace = _
          unfold afterSelect
          rw [hopt]
          show (afterCriterion _ opt rp).trace = _
          unfold afterCriterion
          cases htr : tratar_resultado (dictInsert st.base_payload "javax.faces.ViewState"
              (attrGet jf "value")) rp with
          | none => rfl
          | some recs2 => rfl
        rw [htrace]
        constructor
        · refine ⟨selecionar_criterio_payload (dictInsert st.base_payload
            "javax.faces.ViewState" (attrGet jf "value")) (attrGet opt "value"), ?_, ?_, ?_⟩
          · unfold fullTrace
            exact List.mem_cons_of_mem _ (List.mem_cons_self _ _)
          · rw [selecionar_criterio_payload_ajax]
            simp
          · exact selecionar_criterio_payload_tipo _ _
        · refine ⟨adicionar_criterio_payload (dictInsert st.base_payload
            "javax.faces.ViewState" (attrGet jf "value")) q, ?_, ?_, ?_⟩
          · unfold fullTrace
            exact List.mem_cons_of_mem _ (List.mem_cons_of_mem _ (List.mem_cons_self _ _))
          · rw [adicionar_criterio_payload_btn]
            simp
          · exact adicionar_criterio_payload_tipo _ _
      · intro hnone
        have e : searchW st q sp rp =
            ⟨[selecionar_agravo_payload (dictInsert st.base_payload "javax.faces.ViewState"
               (attrGet jf "value"))], .error "Criterio Nome do paciente not found."⟩ := by
          rw [hsw]
          unfold searchAfterToken
          rw [hsel]
          show afterSelect _ sel rp = _
          unfold afterSelect
          rw [hnone]
        rw [e]
        refine ⟨rfl, ?_⟩
        intro pl hpl
        have hpl1 : pl = selecionar_agravo_payload (dictInsert st.base_payload
            "javax.faces.ViewState" (attrGet jf "value")) := by simpa using hpl
        subst hpl1
        apply selecionar_agravo_payload_btn
        rw [dlookup_dictInsert_ne _ _ _ _ (by decide)]
        exact hbtn

/-- Witness for C1 (amended): on a concrete page whose matching option has
value `13`, the criterion-add payload is issued and carries `13`. -/
theorem c1_witness :
    ∃ pl ∈ (searchW ⟨initBasePayload "01/01/2024" "06/2024" "10/06/2024" "A90 - DENGUE", ""⟩
        "JOAO" (searchFormPage "t1" "13") []).trace,
      dlookup "form:btnAdicionarCriterio" pl ≠ none ∧
      dlookup "form:consulta_tipoCampo" pl = some (some "13") :=
  ((c1_criterion_resolution
      ⟨initBasePayload "01/01/2024" "06/2024" "10/06/2024" "A90 - DENGUE", ""⟩
      "JOAO" (searchFormPage "t1" "13") []
      (Node.elem "select" [("id", "form:consulta_tipoCampo")]
        [Node.elem "option" [("value", "13")] [Node.text "Nome do paciente"]])
      rfl rfl rfl).1
    (Node.elem "option" [("value", "13")] [Node.text "Nome do paciente"]) rfl).2

/-- Counterexample to C1 as stated: with the matching option carrying the
server-assigned value `999`, the criterion-add request is issued but its
field-type entry is the hardcoded `13`, not the resolved value `999`. -/
theorem c1_counterexample :
    findCriterion (Node.elem "select" [("id", "form:consulta_tipoCampo")]
        [Node.elem "option" [("value", "999")] [Node.text "Nome do paciente"]]) =
      some (Node.elem "option" [("value", "999")] [Node.text "Nome do paciente"]) ∧
    attrGet (Node.elem "option" [("value", "999")] [Node.text "Nome do paciente"]) "value" =
      some "999" ∧
    (∃ pl ∈ (searchW ⟨initBasePayload "01/01/2024" "06/2024" "10/06/2024" "A90 - DENGUE", ""⟩
        "JOAO" (searchFormPage "t1" "999") []).trace,
      dlookup "form:btnAdicionarCriterio" pl ≠ none ∧
      dlookup "form:consulta_tipoCampo" pl ≠ some (some "999")) ∧
    ¬(∀ pl ∈ (searchW ⟨initBasePayload "01/01/2024" "06/2024" "10/06/2024" "A90 - DENGUE", ""⟩
        "JOAO" (searchFormPage "t1" "999") []).trace,
      dlookup "form:btnAdicionarCriterio" pl ≠ none →
      dlookup "form:consulta_tipoCampo" pl = some (some "999")) :=
  ⟨rfl, rfl, by decide, by decide⟩

end AutoSinan
